import Mathlib

/-!
# Verification of the resilience/state core of openshift-cluster-health-mcp

Shallow embedding, in Lean 4, of the three core components of the
repository:

* the TTL cache (`pkg/cache/memory_cache.go`),
* the session registry (`internal/server/session.go`),
* the retry policy (`pkg/clients/retry.go`).

Modelling conventions:

* Go `time.Time` and `time.Duration` are both embedded as `Int`
  (nanoseconds, exactly as Go's `time.Duration` counts them).  Every
  syntactic call of `time.Now()` in a Go function body becomes one
  explicit `Int` parameter of the Lean function; a function whose body
  reads the clock twice receives two parameters, and theorems relate
  them by clock monotonicity hypotheses where needed.
* Go maps become association lists `List (String × α)`; `map[k] = v`
  becomes `mapSet`, `delete(m, k)` becomes `mapErase`, lookup becomes
  `List.lookup`.  Go's `len` is `List.length`.
* A Go `interface{}` payload is embedded as `Option V` for a type
  parameter `V`, with `none` playing the untyped `nil`.
* Mutex/ticker/goroutine plumbing (lock fields, cleanup tickers, stop
  channels) carries no sequential meaning and is omitted from the
  state records; the state is what the code reads and writes under the
  lock.
* Counters (`hits`, `misses`, `evictions`) are Go `int64` values that
  start at 0 and are only ever incremented, so they are embedded as
  `Nat` (their reachable range).
* Go's `float64` hit-rate arithmetic is embedded in `ℚ`; on every
  concrete value appearing below the `float64` computation is exact,
  so the rational model agrees with the code there.
-/

/-- One minute in nanoseconds (Go `time.Minute`). -/
def timeMinute : Int := 60 * 1000000000

/-- One millisecond in nanoseconds (Go `time.Millisecond`). -/
def timeMillisecond : Int := 1000000

/-- One second in nanoseconds (Go `time.Second`). -/
def timeSecond : Int := 1000000000

/-- Go map assignment `m[k] = v`: replace the binding of `k` if
present, otherwise add it. -/
def mapSet (k : String) (v : α) : List (String × α) → List (String × α)
  | [] => [(k, v)]
  | (k', v') :: rest => if k = k' then (k, v) :: rest else (k', v') :: mapSet k v rest

/-- Go `delete(m, k)`: remove the binding of `k`. -/
def mapErase (k : String) (l : List (String × α)) : List (String × α) :=
  l.filter (fun p => p.1 ≠ k)

/-! ## TTL cache (`pkg/cache/memory_cache.go`) -/

/-- `CacheEntry` (memory_cache.go lines 10-13): a cached item with
expiration.  `Value interface{}` is `Option V`; `Expiration time.Time`
is `Int` nanoseconds. -/
structure CacheEntry (V : Type) where
  value : Option V
  expiration : Int
  deriving Repr, DecidableEq

/-- `CacheEntry.IsExpired` (lines 16-18): `time.Now().After(e.Expiration)`,
i.e. strictly `expiration < now`.  The `time.Now()` read is the `now`
parameter. -/
def CacheEntry.IsExpired (e : CacheEntry V) (now : Int) : Bool :=
  e.expiration < now

/-- `Statistics` (lines 21-27).  `HitRate float64` is embedded in `ℚ`. -/
structure Statistics where
  hits : Nat
  misses : Nat
  evictions : Nat
  entries : Nat
  hitRate : ℚ
  deriving Repr, DecidableEq

/-- `MemoryCache` (lines 30-41): the state the code reads and writes
under `mu` — the entry map, the default TTL and the three counters.
The mutex, cleanup ticker and stop channel are concurrency plumbing
with no sequential content. -/
structure MemoryCache (V : Type) where
  data : List (String × CacheEntry V)
  defaultTTL : Int
  hits : Nat
  misses : Nat
  evictions : Nat
  deriving Repr, DecidableEq

/-- `NewMemoryCache` (lines 44-56): empty map, given default TTL,
zeroed counters (the background cleanup goroutine is not modelled). -/
def NewMemoryCache (V : Type) (defaultTTL : Int) : MemoryCache V :=
  { data := [], defaultTTL := defaultTTL, hits := 0, misses := 0, evictions := 0 }

/-- `Get` (lines 59-77).  Returns Go's `(interface{}, ok)` pair plus
the updated state.  Absent key: count a miss, return `(nil, false)`.
Present but expired (the `IsExpired` clock read is `now`): count a
miss, return `(nil, false)` — the entry is not removed.  Otherwise
count a hit and return the stored value. -/
def MemoryCache.Get (c : MemoryCache V) (key : String) (now : Int) :
    Option V × Bool × MemoryCache V :=
  match List.lookup key c.data with
  | none => (none, false, { c with misses := c.misses + 1 })
  | some entry =>
    if entry.IsExpired now then
      (none, false, { c with misses := c.misses + 1 })
    else
      (entry.value, true, { c with hits := c.hits + 1 })

/-- `SetWithTTL` (lines 85-93): store `⟨value, now + ttl⟩` under `key`,
overwriting any existing entry.  `now` is the `time.Now()` read of
line 91. -/
def MemoryCache.SetWithTTL (c : MemoryCache V) (key : String) (value : Option V)
    (ttl : Int) (now : Int) : MemoryCache V :=
  { c with data := mapSet key ⟨value, now + ttl⟩ c.data }

/-- `Set` (lines 80-82): `SetWithTTL` with the instance's default TTL. -/
def MemoryCache.Set (c : MemoryCache V) (key : String) (value : Option V)
    (now : Int) : MemoryCache V :=
  c.SetWithTTL key value c.defaultTTL now

/-- `Delete` (lines 96-104).  The Go function declares no results, so
its value component is `Unit`; the effect is: if the key is present,
remove it and increment `evictions`, otherwise do nothing. -/
def MemoryCache.Delete (c : MemoryCache V) (key : String) : MemoryCache V × Unit :=
  match List.lookup key c.data with
  | some _ => ({ c with data := mapErase key c.data, evictions := c.evictions + 1 }, ())
  | none => (c, ())

/-- `GetStatistics` (lines 117-134): snapshot of the counters, the live
entry count, and `HitRate = hits / total * 100` guarded by `total > 0`. -/
def MemoryCache.GetStatistics (c : MemoryCache V) : Statistics :=
  let total : Nat := c.hits + c.misses
  let hitRate : ℚ := if 0 < total then (c.hits : ℚ) / (total : ℚ) * 100 else 0
  { hits := c.hits, misses := c.misses, evictions := c.evictions,
    entries := c.data.length, hitRate := hitRate }

/-- `ResetStatistics` (lines 137-144): zero the three counters, leave
the stored entries untouched. -/
def MemoryCache.ResetStatistics (c : MemoryCache V) : MemoryCache V :=
  { c with hits := 0, misses := 0, evictions := 0 }

/-! ## Claim C6: `GetOrSet` / `GetOrSetWithTTL` -/

/-- `GetOrSet` (memory_cache.go lines 184-200).  The `ctx` parameter
is unused by the Go code and omitted.  `compute` is the result of
Go's fallible zero-argument producer, a `(value, error)` pair; it is
consumed only on a miss, and the third component of the result counts
its invocations.  `tGet` is the clock read inside `Get`'s expiry
check, `tSet` the one inside the `Set` store. -/
def MemoryCache.GetOrSet (c : MemoryCache V) (key : String)
    (compute : Option V × Option E) (tGet tSet : Int) :
    (Option V × Option E) × MemoryCache V × Nat :=
  let g := c.Get key tGet
  if g.2.1 then ((g.1, none), g.2.2, 0)
  else
    match compute with
    | (_, some e) => ((none, some e), g.2.2, 1)
    | (value, none) => ((value, none), g.2.2.Set key value tSet, 1)

/-- `GetOrSetWithTTL` (lines 203-219): as `GetOrSet` but storing with
the explicit per-entry TTL. -/
def MemoryCache.GetOrSetWithTTL (c : MemoryCache V) (key : String) (ttl : Int)
    (compute : Option V × Option E) (tGet tSet : Int) :
    (Option V × Option E) × MemoryCache V × Nat :=
  let g := c.Get key tGet
  if g.2.1 then ((g.1, none), g.2.2, 0)
  else
    match compute with
    | (_, some e) => ((none, some e), g.2.2, 1)
    | (value, none) => ((value, none), g.2.2.SetWithTTL key value ttl tSet, 1)

/-! ## Session registry (`internal/server/session.go`) -/

/-- `Session` (session.go lines 12-18).  Timestamps are `Int`
nanoseconds; the `Metadata map[string]interface{}` payload is opaque
to the registry and embedded as a type parameter `M`. -/
structure Session (M : Type) where
  id : String
  createdAt : Int
  expiresAt : Int
  lastUsed : Int
  metadata : M
  deriving Repr, DecidableEq

/-- The capacity error of `CreateSession` (line 62):
`"maximum sessions limit reached (%d)"`, carrying the limit. -/
inductive SessionError where
  | maxReached (limit : Int)
  deriving Repr, DecidableEq

/-- `SessionManager` (lines 22-28): the id→session map, the TTL and
the maximum (the Go field is spelled `maxSessons`); the mutex and stop
channel are concurrency plumbing. -/
structure SessionManager (M : Type) where
  sessions : List (String × Session M)
  ttl : Int
  maxSessons : Int
  deriving Repr, DecidableEq

/-- `NewSessionManager` (lines 31-50): a TTL argument of exactly 0 is
replaced by 30 minutes, a max-sessions argument of exactly 0 by 1000;
all other values (including negative ones) are kept.  The cleanup
goroutine is not modelled. -/
def NewSessionManager (M : Type) (sessionTTL : Int) (maxSessions : Int) :
    SessionManager M :=
  let ttl := if sessionTTL = 0 then 30 * timeMinute else sessionTTL
  let maxS := if maxSessions = 0 then 1000 else maxSessions
  { sessions := [], ttl := ttl, maxSessons := maxS }

/-- `cleanupExpiredLocked` (lines 230-237): drop every session with
`now.After(expiresAt)`, i.e. keep those with `¬ (expiresAt < now)`.
`now` is the single `time.Now()` read of line 231. -/
def SessionManager.cleanupExpiredLocked (sm : SessionManager M) (now : Int) :
    SessionManager M :=
  { sm with sessions := sm.sessions.filter (fun p => ¬ (p.2.expiresAt < now)) }

/-- The storing tail of `CreateSession` (lines 66-82): build the
session with `createdAt = lastUsed = tNow` and
`expiresAt = tNow + ttl`, store it under its id, return it.  The
output of `generateSessionID` is the injected `newId` (the generation
failure branch of lines 67-70 concerns the random source, not the
registry state, and is not modelled). -/
def SessionManager.storeNewSession (sm : SessionManager M) (metadata : M)
    (newId : String) (tNow : Int) :
    Option (Session M) × Option SessionError × SessionManager M :=
  let session : Session M :=
    { id := newId, createdAt := tNow, expiresAt := tNow + sm.ttl,
      lastUsed := tNow, metadata := metadata }
  (some session, none, { sm with sessions := mapSet newId session sm.sessions })

/-- `CreateSession` (lines 53-83).  If the stored count is at or above
`maxSessons`, run the inline expired sweep (clock read `tCleanup`,
line 231); if the count is still at or above the limit, fail with the
capacity error and store nothing; otherwise store a fresh session
built at clock read `tNow` (line 72). -/
def SessionManager.CreateSession (sm : SessionManager M) (metadata : M)
    (newId : String) (tCleanup tNow : Int) :
    Option (Session M) × Option SessionError × SessionManager M :=
  if (sm.sessions.length : Int) ≥ sm.maxSessons then
    let sm1 := sm.cleanupExpiredLocked tCleanup
    if (sm1.sessions.length : Int) ≥ sm1.maxSessons then
      (none, some (.maxReached sm1.maxSessons), sm1)
    else
      sm1.storeNewSession metadata newId tNow
  else
    sm.storeNewSession metadata newId tNow

/-- `TouchSession` (lines 105-124).  The body reads the clock three
times: `t1` in the expiry check of line 115, `t2` for `LastUsed` on
line 121, `t3` for `ExpiresAt` on line 122.  Unknown id: `false`.
Expired (`t1` strictly after `expiresAt`): remove the session, return
`false`.  Otherwise set `lastUsed = t2`, `expiresAt = t3 + ttl` and
return `true`. -/
def SessionManager.TouchSession (sm : SessionManager M) (sessionID : String)
    (t1 t2 t3 : Int) : Bool × SessionManager M :=
  match List.lookup sessionID sm.sessions with
  | none => (false, sm)
  | some session =>
    if session.expiresAt < t1 then
      (false, { sm with sessions := mapErase sessionID sm.sessions })
    else
      let updated := { session with lastUsed := t2, expiresAt := t3 + sm.ttl }
      (true, { sm with sessions := mapSet sessionID updated sm.sessions })

/-- `DeleteSession` (lines 127-136): `true` iff a session was actually
removed. -/
def SessionManager.DeleteSession (sm : SessionManager M) (sessionID : String) :
    Bool × SessionManager M :=
  match List.lookup sessionID sm.sessions with
  | some _ => (true, { sm with sessions := mapErase sessionID sm.sessions })
  | none => (false, sm)

/-! ## Retry policy (`pkg/clients/retry.go`) -/

/-- The error values distinguished by `isRetryable` (retry.go lines
74-99): the five Kubernetes API conditions it treats as retryable,
and `other` for everything else (generic network errors included). -/
inductive GoError where
  | timeout
  | serverTimeout
  | tooManyRequests
  | internalError
  | serviceUnavailable
  | other (code : Nat)
  deriving Repr, DecidableEq

/-- `isRetryable` (lines 74-99), on Go's nilable `error`: `nil` is not
retryable (lines 75-77); the five Kubernetes API conditions are
retryable; everything else is not. -/
def isRetryable : Option GoError → Bool
  | none => false
  | some .timeout => true
  | some .serverTimeout => true
  | some .tooManyRequests => true
  | some .internalError => true
  | some .serviceUnavailable => true
  | some (.other _) => false

/-- `RetryConfig` (lines 12-17).  `MaxRetries` is a Go `int`
(embedded as `Int` since callers may pass any value); the backoff
fields are durations and the `float64` multiplier is embedded in `ℚ`.
The backoff fields only shape the sleep durations between attempts,
which have no observable effect in this sequential model (see
`retryLoop`). -/
structure RetryConfig where
  maxRetries : Int
  initialBackoff : Int
  maxBackoff : Int
  multiplier : ℚ
  deriving Repr, DecidableEq

/-- `DefaultRetryConfig` (lines 20-27): 3 retries, 100ms initial
backoff, 5s cap, 2x multiplier. -/
def DefaultRetryConfig : RetryConfig :=
  { maxRetries := 3, initialBackoff := 100 * timeMillisecond,
    maxBackoff := 5 * timeSecond, multiplier := 2 }

/-- The outcomes of `RetryWithBackoff`: success (`err == nil`), the
wrapped `"non-retryable error: %w"` (line 49), the wrapped
`"context cancelled after %d attempts: %w"` (line 60), and the
wrapped `"max retries (%d) exceeded: %w"` (line 70, `last = none`
when the loop body never ran and `lastErr` is still nil). -/
inductive RetryResult where
  | ok
  | nonRetryableError (e : GoError)
  | contextCancelled (attempts : Int)
  | maxRetriesExceeded (maxRetries : Int) (last : Option GoError)
  deriving Repr, DecidableEq

/-- The `for attempt := 0; attempt <= cfg.MaxRetries` loop of
`RetryWithBackoff` (retry.go lines 38-68), with `fuel` the number of
loop iterations still permitted (`maxRetries - attempt + 1` at entry)
and `op k` the error returned by the `k`-th invocation of `fn`
(`none` = success); the second component counts invocations of `fn`.
The `select` of lines 58-67 is modelled by `cancelled`: the context's
cancellation status, fixed for the whole call (the claims only
concern contexts already cancelled before the call, or never
cancelled); when it is set, `ctx.Done()` is already closed at the
`select` while the `time.After(backoff)` timer is not yet ready, so
the cancellation branch is taken.  The backoff doubling of lines
62-66 only changes how long the timer branch sleeps, which is
unobservable here, so the backoff value is not tracked. -/
def retryLoop (cancelled : Bool) (op : Nat → Option GoError) (maxRetries : Int)
    (attempt : Nat) : Nat → RetryResult × Nat
  | 0 => (.maxRetriesExceeded maxRetries none, 0)
  | fuel + 1 =>
    match op attempt with
    | none => (.ok, 1)
    | some e =>
      if ¬ isRetryable (some e) then (.nonRetryableError e, 1)
      else if fuel = 0 then (.maxRetriesExceeded maxRetries (some e), 1)
      else if cancelled then (.contextCancelled ((attempt : Int) + 1), 1)
      else
        let r := retryLoop cancelled op maxRetries (attempt + 1) fuel
        (r.1, r.2 + 1)

/-- `RetryWithBackoff` (lines 30-71): a `nil` config is replaced by
the defaults (lines 31-33), then the loop runs with
`maxRetries + 1` iterations permitted (none when `maxRetries` is
negative, in which case the loop body never runs and the function
returns the exhaustion error with a nil last error). -/
def RetryWithBackoff (cancelled : Bool) (cfg : Option RetryConfig)
    (op : Nat → Option GoError) : RetryResult × Nat :=
  let c := cfg.getD DefaultRetryConfig
  retryLoop cancelled op c.maxRetries 0 (c.maxRetries + 1).toNat

/-! ## Theorems: helper lemmas and the claims -/

/-- Looking up the key just written by `mapSet` finds the new value. -/
theorem lookup_mapSet_self (k : String) (v : α) (l : List (String × α)) :
    List.lookup k (mapSet k v l) = some v := by
  induction l with
  | nil => simp [mapSet, List.lookup]
  | cons p rest ih =>
    by_cases h : k = p.1
    · simp [mapSet, h, List.lookup]
    · have hb : (k == p.1) = false := beq_eq_false_iff_ne.mpr h
      simp only [mapSet, if_neg h]
      simpa [List.lookup, hb] using ih

/-- Looking up the key just removed by `mapErase` finds nothing. -/
theorem lookup_mapErase_self (k : String) (l : List (String × α)) :
    List.lookup k (mapErase k l) = none := by
  induction l with
  | nil => rfl
  | cons p rest ih =>
    obtain ⟨pk, pv⟩ := p
    by_cases h : pk = k
    · simpa [mapErase, List.filter_cons, h] using ih
    · have hb : (k == pk) = false := beq_eq_false_iff_ne.mpr (fun hh => h hh.symm)
      simp only [mapErase, List.filter_cons] at *
      rw [if_pos (by simpa using h)]
      simp only [List.lookup, hb]
      exact ih

/-- `Get` never changes the entry map or the default TTL (it only
bumps a counter). -/
theorem get_state_fields (c : MemoryCache V) (key : String) (now : Int) :
    ((c.Get key now).2.2).data = c.data ∧
    ((c.Get key now).2.2).defaultTTL = c.defaultTTL := by
  rcases h : List.lookup key c.data with _ | entry
  · simp [MemoryCache.Get, h]
  · cases he : entry.IsExpired now
    · simp [MemoryCache.Get, h, he]
    · simp [MemoryCache.Get, h, he]

/-! ## Claims C1 and C4 -/

/-- C1 counterexample: the claim says `GetStatistics` returns
`hitRate = hits / (hits + misses)`.  On the state with `hits = 1`,
`misses = 1` the code computes `1 / 2 * 100 = 50` (exact also in
`float64`), not the claimed `1 / 2`. -/
theorem getStatistics_hitRate_fraction_false :
    ¬ ((MemoryCache.GetStatistics
        { data := [], defaultTTL := 0, hits := 1, misses := 1, evictions := 0
          : MemoryCache Nat }).hitRate
      = (1 : ℚ) / (1 + 1)) := by
  simp only [MemoryCache.GetStatistics]
  norm_num

/-- C1 amended: `GetStatistics` returns `hitRate` equal to
`100 * hits / (hits + misses)` (a percentage) computed from the
counters at call time, and `hitRate = 0` when `hits + misses = 0`,
in particular on a fresh cache and immediately after
`ResetStatistics`. -/
theorem getStatistics_hitRate_percentage (V : Type) :
    (∀ c : MemoryCache V,
      c.GetStatistics.hitRate =
        if c.hits + c.misses = 0 then 0
        else 100 * (c.hits : ℚ) / ((c.hits + c.misses : Nat) : ℚ)) ∧
    (∀ ttl : Int, (NewMemoryCache V ttl).GetStatistics.hitRate = 0) ∧
    (∀ c : MemoryCache V, c.ResetStatistics.GetStatistics.hitRate = 0) := by
  refine ⟨fun c => ?_, fun ttl => ?_, fun c => ?_⟩
  · simp only [MemoryCache.GetStatistics]
    rcases Nat.eq_zero_or_pos (c.hits + c.misses) with h | h
    · simp [h]
    · have hne : c.hits + c.misses ≠ 0 := Nat.pos_iff_ne_zero.mp h
      rw [if_pos h, if_neg hne]
      ring
  · simp [NewMemoryCache, MemoryCache.GetStatistics]
  · simp [MemoryCache.ResetStatistics, MemoryCache.GetStatistics]

/-- C4: on a present-but-expired entry (`now` strictly after
`expiration`), `Get` returns `found = false` with a nil value,
increments `misses` by exactly 1, leaves `hits` and `evictions`
unchanged, and leaves the entry physically present in the store. -/
theorem get_expired_entry_counts_miss (V : Type) (c : MemoryCache V) (key : String)
    (e : CacheEntry V) (now : Int)
    (hpres : List.lookup key c.data = some e)
    (hexp : e.expiration < now) :
    c.Get key now = (none, false, { c with misses := c.misses + 1 }) ∧
    List.lookup key (c.Get key now).2.2.data = some e := by
  have hGet : c.Get key now = (none, false, { c with misses := c.misses + 1 }) := by
    simp [MemoryCache.Get, hpres, CacheEntry.IsExpired, hexp]
  exact ⟨hGet, by rw [hGet]; exact hpres⟩

/-- C4 witness: a concrete cache holding an entry for `"k"` that
expired at time 5, read at time 6. -/
theorem get_expired_entry_counts_miss_witness :
    (MemoryCache.Get
      { data := [("k", ⟨some 7, 5⟩)], defaultTTL := 0, hits := 2, misses := 3,
        evictions := 0 : MemoryCache Nat } "k" 6)
      = (none, false,
         { data := [("k", ⟨some 7, 5⟩)], defaultTTL := 0, hits := 2, misses := 4,
           evictions := 0 }) ∧
    List.lookup "k"
      (MemoryCache.Get
        { data := [("k", ⟨some 7, 5⟩)], defaultTTL := 0, hits := 2, misses := 3,
          evictions := 0 : MemoryCache Nat } "k" 6).2.2.data = some ⟨some 7, 5⟩ :=
  get_expired_entry_counts_miss Nat
    { data := [("k", ⟨some 7, 5⟩)], defaultTTL := 0, hits := 2, misses := 3,
      evictions := 0 } "k" ⟨some 7, 5⟩ 6 (by simp [List.lookup]) (by decide)


/-! ## Claim C2 -/

/-- C2 counterexample: the claim says `Delete` returns `true` on a
present key and `false` on an absent key.  The Go function
(memory_cache.go line 96) declares no results: its only value is the
unit result, so no decoding `f` of that value can yield `true` after
deleting the present key `"k"` and `false` after deleting it from the
empty cache — the claimed boolean return does not exist. -/
theorem delete_boolean_return_false :
    ¬ ∃ f : Unit → Bool,
        f (MemoryCache.Delete
            { data := [("k", ⟨some 1, 10⟩)], defaultTTL := 0, hits := 0,
              misses := 0, evictions := 0 : MemoryCache Nat } "k").2 = true ∧
        f (MemoryCache.Delete (NewMemoryCache Nat 0) "k").2 = false := by
  rintro ⟨f, h1, h2⟩
  rw [show (MemoryCache.Delete
      { data := [("k", ⟨some 1, 10⟩)], defaultTTL := 0, hits := 0,
        misses := 0, evictions := 0 : MemoryCache Nat } "k").2 = () from rfl] at h1
  rw [show (MemoryCache.Delete (NewMemoryCache Nat 0) "k").2 = () from rfl] at h2
  rw [h1] at h2
  exact absurd h2 (by decide)

/-- C2 amended: `Delete` returns no value; on an absent key it leaves
the whole state (in particular the `evictions` counter) unchanged; on
a present key it removes the entry and increments `evictions` by
exactly 1, leaving the other counters and the default TTL unchanged. -/
theorem delete_effect (V : Type) (c : MemoryCache V) (key : String) :
    (List.lookup key c.data = none → c.Delete key = (c, ())) ∧
    (∀ e, List.lookup key c.data = some e →
      (c.Delete key).1.evictions = c.evictions + 1 ∧
      List.lookup key (c.Delete key).1.data = none ∧
      (c.Delete key).1.data = mapErase key c.data ∧
      (c.Delete key).1.hits = c.hits ∧
      (c.Delete key).1.misses = c.misses ∧
      (c.Delete key).1.defaultTTL = c.defaultTTL) := by
  constructor
  · intro h
    simp [MemoryCache.Delete, h]
  · intro e h
    simp [MemoryCache.Delete, h, lookup_mapErase_self]

/-- C2 witness: deleting `"k"` from the empty cache changes nothing;
deleting it from a cache holding it bumps `evictions` from 0 to 1 and
removes the entry. -/
theorem delete_effect_witness :
    MemoryCache.Delete (NewMemoryCache Nat 0) "k" = (NewMemoryCache Nat 0, ()) ∧
    (MemoryCache.Delete
        { data := [("k", ⟨some 1, 10⟩)], defaultTTL := 0, hits := 0,
          misses := 0, evictions := 0 : MemoryCache Nat } "k").1.evictions = 0 + 1 ∧
    List.lookup "k"
      (MemoryCache.Delete
        { data := [("k", ⟨some 1, 10⟩)], defaultTTL := 0, hits := 0,
          misses := 0, evictions := 0 : MemoryCache Nat } "k").1.data = none :=
  ⟨(delete_effect Nat (NewMemoryCache Nat 0) "k").1 rfl,
   (((delete_effect Nat
      { data := [("k", ⟨some 1, 10⟩)], defaultTTL := 0, hits := 0,
        misses := 0, evictions := 0 } "k").2 ⟨some 1, 10⟩ (by simp [List.lookup]))).1,
   (((delete_effect Nat
      { data := [("k", ⟨some 1, 10⟩)], defaultTTL := 0, hits := 0,
        misses := 0, evictions := 0 } "k").2 ⟨some 1, 10⟩ (by simp [List.lookup]))).2.1⟩

/-! ## Claim C3 -/

/-- C3 counterexample: `TouchSession` writes `LastUsed` and
`ExpiresAt` from two distinct `time.Now()` reads (session.go lines
121 and 122).  Touching a live session (stored expiry 100, TTL 10)
with monotone clock reads 0, 0, 1 succeeds but leaves
`expiresAt = 11 ≠ 10 = lastUsed + ttl`. -/
theorem touchSession_exact_invariant_false :
    (SessionManager.TouchSession
      { sessions := [("a", { id := "a", createdAt := 0, expiresAt := 100,
                             lastUsed := 0, metadata := 0 })],
        ttl := 10, maxSessons := 5 : SessionManager Nat } "a" 0 0 1).1 = true ∧
    List.lookup "a"
      (SessionManager.TouchSession
        { sessions := [("a", { id := "a", createdAt := 0, expiresAt := 100,
                               lastUsed := 0, metadata := 0 })],
          ttl := 10, maxSessons := 5 : SessionManager Nat } "a" 0 0 1).2.sessions
      = some { id := "a", createdAt := 0, expiresAt := 11,
               lastUsed := 0, metadata := 0 } ∧
    ¬ ((11 : Int) = 0 + 10) := by
  refine ⟨by decide, by decide, by decide⟩

/-- C3 amended: with monotone clock reads `t1 ≤ t2 ≤ t3`,
`TouchSession` on an unknown id returns `false` and changes nothing;
on an expired id (first read strictly after `expiresAt`) it removes
the session and returns `false`; on a live id it returns `true` and
stores the session with `lastUsed = t2` and `expiresAt = t3 + ttl`,
so `expiresAt ≥ lastUsed + ttl` always holds after the touch, with
equality exactly when the two write-side clock reads coincide. -/
theorem touchSession_behavior (M : Type) (sm : SessionManager M) (id : String)
    (t1 t2 t3 : Int) (h12 : t1 ≤ t2) (h23 : t2 ≤ t3) :
    (List.lookup id sm.sessions = none →
      sm.TouchSession id t1 t2 t3 = (false, sm)) ∧
    (∀ s, List.lookup id sm.sessions = some s → s.expiresAt < t1 →
      sm.TouchSession id t1 t2 t3
        = (false, { sm with sessions := mapErase id sm.sessions }) ∧
      List.lookup id (sm.TouchSession id t1 t2 t3).2.sessions = none) ∧
    (∀ s, List.lookup id sm.sessions = some s → ¬ (s.expiresAt < t1) →
      (sm.TouchSession id t1 t2 t3).1 = true ∧
      (sm.TouchSession id t1 t2 t3).2.ttl = sm.ttl ∧
      List.lookup id (sm.TouchSession id t1 t2 t3).2.sessions
        = some { s with lastUsed := t2, expiresAt := t3 + sm.ttl } ∧
      (∀ s', List.lookup id (sm.TouchSession id t1 t2 t3).2.sessions = some s' →
        s'.lastUsed + sm.ttl ≤ s'.expiresAt ∧
        (t2 = t3 → s'.expiresAt = s'.lastUsed + sm.ttl))) := by
  refine ⟨fun h => ?_, fun s hs hexp => ?_, fun s hs hlive => ?_⟩
  · simp [SessionManager.TouchSession, h]
  · constructor
    · simp [SessionManager.TouchSession, hs, hexp]
    · simp [SessionManager.TouchSession, hs, hexp, lookup_mapErase_self]
  · have htouch : sm.TouchSession id t1 t2 t3
        = (true, { sm with sessions := (mapSet id
            { s with lastUsed := t2, expiresAt := t3 + sm.ttl } sm.sessions) }) := by
      simp [SessionManager.TouchSession, hs, hlive]
    refine ⟨by rw [htouch], by rw [htouch], ?_, ?_⟩
    · rw [htouch]
      exact lookup_mapSet_self id _ sm.sessions
    · intro s' hs'
      rw [htouch] at hs'
      rw [lookup_mapSet_self] at hs'
      cases hs'
      constructor
      · exact add_le_add_right h23 sm.ttl
      · intro he
        rw [he]

/-- C3 witness: touching the live session `"a"` (expiry 100, TTL 10)
with clock reads 0, 0, 1 returns `true` and stores
`lastUsed = 0`, `expiresAt = 1 + 10`. -/
theorem touchSession_behavior_witness :
    (SessionManager.TouchSession
      { sessions := [("a", { id := "a", createdAt := 0, expiresAt := 100,
                             lastUsed := 0, metadata := 0 })],
        ttl := 10, maxSessons := 5 : SessionManager Nat } "a" 0 0 1).1 = true ∧
    List.lookup "a"
      (SessionManager.TouchSession
        { sessions := [("a", { id := "a", createdAt := 0, expiresAt := 100,
                               lastUsed := 0, metadata := 0 })],
          ttl := 10, maxSessons := 5 : SessionManager Nat } "a" 0 0 1).2.sessions
      = some { id := "a", createdAt := 0, expiresAt := 1 + 10,
               lastUsed := 0, metadata := 0 } := by
  have h := (touchSession_behavior Nat
    { sessions := [("a", { id := "a", createdAt := 0, expiresAt := 100,
                           lastUsed := 0, metadata := 0 })],
      ttl := 10, maxSessons := 5 } "a" 0 0 1 (by decide) (by decide)).2.2
    { id := "a", createdAt := 0, expiresAt := 100, lastUsed := 0, metadata := 0 }
    (by decide) (by decide)
  exact ⟨h.1, h.2.2.1⟩

/-! ## Claims C5 and C9 -/

/-- C5: starting from any registry whose stored count is at or above
`maxSessons`, `CreateSession` first runs the inline expired sweep
(`cleanupExpiredLocked` at clock read `t1`); if the count is still at
or above the limit it returns the capacity error and the swept state
with no new session stored; otherwise it stores and returns a fresh
session with `createdAt = lastUsed = t2` and `expiresAt = t2 + ttl`. -/
theorem createSession_capacity (M : Type) (sm : SessionManager M) (metadata : M)
    (newId : String) (t1 t2 : Int)
    (hfull : (sm.sessions.length : Int) ≥ sm.maxSessons) :
    (((sm.cleanupExpiredLocked t1).sessions.length : Int) ≥ sm.maxSessons →
      sm.CreateSession metadata newId t1 t2
        = (none, some (.maxReached sm.maxSessons), sm.cleanupExpiredLocked t1)) ∧
    (((sm.cleanupExpiredLocked t1).sessions.length : Int) < sm.maxSessons →
      sm.CreateSession metadata newId t1 t2
        = (sm.cleanupExpiredLocked t1).storeNewSession metadata newId t2 ∧
      (sm.CreateSession metadata newId t1 t2).1
        = some { id := newId, createdAt := t2, expiresAt := t2 + sm.ttl,
                 lastUsed := t2, metadata := metadata } ∧
      (sm.CreateSession metadata newId t1 t2).2.1 = none ∧
      List.lookup newId (sm.CreateSession metadata newId t1 t2).2.2.sessions
        = some { id := newId, createdAt := t2, expiresAt := t2 + sm.ttl,
                 lastUsed := t2, metadata := metadata }) := by
  have hmax : (sm.cleanupExpiredLocked t1).maxSessons = sm.maxSessons := rfl
  constructor
  · intro hstill
    simp only [SessionManager.CreateSession, ge_iff_le]
    rw [if_pos (ge_iff_le.mp hfull), hmax, if_pos (ge_iff_le.mp hstill)]
  · intro hroom
    have hcreate : sm.CreateSession metadata newId t1 t2
        = (sm.cleanupExpiredLocked t1).storeNewSession metadata newId t2 := by
      simp only [SessionManager.CreateSession, ge_iff_le]
      rw [if_pos (ge_iff_le.mp hfull), hmax, if_neg (not_le.mpr hroom)]
    refine ⟨hcreate, by rw [hcreate]; rfl, by rw [hcreate]; rfl, ?_⟩
    rw [hcreate]
    exact lookup_mapSet_self newId _ _

/-- C5 witness: a registry with `maxSessons = 1` holding one session
with expiry 5.  At clock 3 the sweep removes nothing and creation
fails with the capacity error; at clock 6 the sweep frees the slot
and creation stores a fresh session `⟨"b", 6, 6 + 10, 6, _⟩`. -/
theorem createSession_capacity_witness :
    SessionManager.CreateSession
      { sessions := [("a", { id := "a", createdAt := 0, expiresAt := 5,
                             lastUsed := 0, metadata := 0 })],
        ttl := 10, maxSessons := 1 : SessionManager Nat } 0 "b" 3 3
      = (none, some (.maxReached 1),
         SessionManager.cleanupExpiredLocked
          { sessions := [("a", { id := "a", createdAt := 0, expiresAt := 5,
                                 lastUsed := 0, metadata := 0 })],
            ttl := 10, maxSessons := 1 } 3) ∧
    (SessionManager.CreateSession
      { sessions := [("a", { id := "a", createdAt := 0, expiresAt := 5,
                             lastUsed := 0, metadata := 0 })],
        ttl := 10, maxSessons := 1 : SessionManager Nat } 0 "b" 6 6).1
      = some { id := "b", createdAt := 6, expiresAt := 6 + 10,
               lastUsed := 6, metadata := 0 } :=
  ⟨(createSession_capacity Nat
      { sessions := [("a", { id := "a", createdAt := 0, expiresAt := 5,
                             lastUsed := 0, metadata := 0 })],
        ttl := 10, maxSessons := 1 } 0 "b" 3 3 (by decide)).1 (by decide),
   ((createSession_capacity Nat
      { sessions := [("a", { id := "a", createdAt := 0, expiresAt := 5,
                             lastUsed := 0, metadata := 0 })],
        ttl := 10, maxSessons := 1 } 0 "b" 6 6 (by decide)).2 (by decide)).2.1⟩

/-- C9: `NewSessionManager` replaces a TTL argument of exactly 0 by 30
minutes and a max-sessions argument of exactly 0 by 1000; any nonzero
argument (negative included) is kept; and any registry with a negative
`maxSessons` rejects every `CreateSession` with the capacity error
(the stored count, being a nonnegative length, is always at or above a
negative limit, before and after the inline sweep). -/
theorem newSessionManager_defaults (M : Type) :
    (∀ maxS : Int, (NewSessionManager M 0 maxS).ttl = 30 * timeMinute) ∧
    (∀ ttl : Int, (NewSessionManager M ttl 0).maxSessons = 1000) ∧
    (∀ ttl maxS : Int, ttl ≠ 0 → (NewSessionManager M ttl maxS).ttl = ttl) ∧
    (∀ ttl maxS : Int, maxS ≠ 0 → (NewSessionManager M ttl maxS).maxSessons = maxS) ∧
    (∀ (sm : SessionManager M) (metadata : M) (newId : String) (t1 t2 : Int),
      sm.maxSessons < 0 →
      (sm.CreateSession metadata newId t1 t2).2.1
          = some (.maxReached sm.maxSessons) ∧
      (sm.CreateSession metadata newId t1 t2).1 = none) := by
  refine ⟨fun maxS => by simp [NewSessionManager],
          fun ttl => by simp [NewSessionManager],
          fun ttl maxS h => by simp [NewSessionManager, h],
          fun ttl maxS h => by simp [NewSessionManager, h],
          fun sm metadata newId t1 t2 hneg => ?_⟩
  have hfull : (sm.sessions.length : Int) ≥ sm.maxSessons :=
    le_trans (le_of_lt hneg) (Int.natCast_nonneg _)
  have hstill : ((sm.cleanupExpiredLocked t1).sessions.length : Int) ≥ sm.maxSessons :=
    le_trans (le_of_lt hneg) (Int.natCast_nonneg _)
  have h := (createSession_capacity M sm metadata newId t1 t2 hfull).1 hstill
  rw [h]
  exact ⟨rfl, rfl⟩

/-- C9 witness: concrete defaulting — TTL 0 becomes 30 minutes, max 0
becomes 1000, nonzero arguments 7 and -2 are kept, and the registry
built with `maxSessions = -2` rejects a creation with the capacity
error. -/
theorem newSessionManager_defaults_witness :
    (NewSessionManager Nat 0 5).ttl = 30 * timeMinute ∧
    (NewSessionManager Nat 7 0).maxSessons = 1000 ∧
    (NewSessionManager Nat 7 5).ttl = 7 ∧
    (NewSessionManager Nat 7 (-2)).maxSessons = -2 ∧
    ((NewSessionManager Nat 7 (-2)).CreateSession 0 "x" 0 0).2.1
      = some (.maxReached (-2)) ∧
    ((NewSessionManager Nat 7 (-2)).CreateSession 0 "x" 0 0).1 = none :=
  ⟨(newSessionManager_defaults Nat).1 5,
   (newSessionManager_defaults Nat).2.1 7,
   (newSessionManager_defaults Nat).2.2.1 7 5 (by decide),
   (newSessionManager_defaults Nat).2.2.2.1 7 (-2) (by decide),
   ((newSessionManager_defaults Nat).2.2.2.2
      (NewSessionManager Nat 7 (-2)) 0 "x" 0 0 (by decide)).1,
   ((newSessionManager_defaults Nat).2.2.2.2
      (NewSessionManager Nat 7 (-2)) 0 "x" 0 0 (by decide)).2⟩

/-- C6: on a hit, `GetOrSet` and `GetOrSetWithTTL` return the cached
value without invoking `compute` (invocation count 0); on a miss they
invoke it exactly once, and a failing `compute` propagates its error
with the entry map unchanged, while a succeeding `compute` stores its
result under the key (with the default TTL resp. the explicit TTL)
before returning it. -/
theorem getOrSet_contract (V E : Type) (c : MemoryCache V) (key : String)
    (compute : Option V × Option E) (ttl tGet tSet : Int) :
    ((c.Get key tGet).2.1 = true →
      c.GetOrSet key compute tGet tSet
        = (((c.Get key tGet).1, none), (c.Get key tGet).2.2, 0) ∧
      c.GetOrSetWithTTL key ttl compute tGet tSet
        = (((c.Get key tGet).1, none), (c.Get key tGet).2.2, 0)) ∧
    ((c.Get key tGet).2.1 = false → ∀ e, compute.2 = some e →
      c.GetOrSet key compute tGet tSet
        = ((none, some e), (c.Get key tGet).2.2, 1) ∧
      c.GetOrSetWithTTL key ttl compute tGet tSet
        = ((none, some e), (c.Get key tGet).2.2, 1) ∧
      ((c.Get key tGet).2.2).data = c.data) ∧
    ((c.Get key tGet).2.1 = false → compute.2 = none →
      c.GetOrSet key compute tGet tSet
        = ((compute.1, none), ((c.Get key tGet).2.2).Set key compute.1 tSet, 1) ∧
      List.lookup key (c.GetOrSet key compute tGet tSet).2.1.data
        = some ⟨compute.1, tSet + c.defaultTTL⟩ ∧
      c.GetOrSetWithTTL key ttl compute tGet tSet
        = ((compute.1, none),
           ((c.Get key tGet).2.2).SetWithTTL key compute.1 ttl tSet, 1) ∧
      List.lookup key (c.GetOrSetWithTTL key ttl compute tGet tSet).2.1.data
        = some ⟨compute.1, tSet + ttl⟩) := by
  have hd := get_state_fields c key tGet
  refine ⟨fun hfound => ?_, fun hmiss e hce => ?_, fun hmiss hcn => ?_⟩
  · constructor
    · simp [MemoryCache.GetOrSet, hfound]
    · simp [MemoryCache.GetOrSetWithTTL, hfound]
  · obtain ⟨cv, ce⟩ := compute
    simp only at hce
    subst hce
    refine ⟨?_, ?_, hd.1⟩
    · simp [MemoryCache.GetOrSet, hmiss]
    · simp [MemoryCache.GetOrSetWithTTL, hmiss]
  · obtain ⟨cv, ce⟩ := compute
    simp only at hcn
    subst hcn
    have h1 : c.GetOrSet key (cv, (none : Option E)) tGet tSet
        = ((cv, none), ((c.Get key tGet).2.2).Set key cv tSet, 1) := by
      simp [MemoryCache.GetOrSet, hmiss]
    have h2 : c.GetOrSetWithTTL key ttl (cv, (none : Option E)) tGet tSet
        = ((cv, none), ((c.Get key tGet).2.2).SetWithTTL key cv ttl tSet, 1) := by
      simp [MemoryCache.GetOrSetWithTTL, hmiss]
    refine ⟨h1, ?_, h2, ?_⟩
    · rw [h1]
      simp [MemoryCache.Set, MemoryCache.SetWithTTL, lookup_mapSet_self, hd.2]
    · rw [h2]
      simp [MemoryCache.SetWithTTL, lookup_mapSet_self]

/-- C6 witness: a hit on `"k"` returns the cached 5 and never runs
`compute`; on the empty cache, a failing `compute` (error 42)
propagates with the map left empty, and a succeeding `compute`
(value 9) is stored under `"k"` with the default TTL 7. -/
theorem getOrSet_contract_witness :
    MemoryCache.GetOrSet
      { data := [("k", ⟨some 5, 10⟩)], defaultTTL := 7, hits := 0, misses := 0,
        evictions := 0 : MemoryCache Nat } "k" ((some 9 : Option Nat), (none : Option Nat)) 3 3
      = ((some 5, none),
         { data := [("k", ⟨some 5, 10⟩)], defaultTTL := 7, hits := 1, misses := 0,
           evictions := 0 }, 0) ∧
    MemoryCache.GetOrSet (NewMemoryCache Nat 7) "k"
        ((none : Option Nat), (some 42 : Option Nat)) 3 3
      = ((none, some 42),
         { data := [], defaultTTL := 7, hits := 0, misses := 1, evictions := 0 }, 1) ∧
    List.lookup "k"
      (MemoryCache.GetOrSet (NewMemoryCache Nat 7) "k"
        ((some 9 : Option Nat), (none : Option Nat)) 3 3).2.1.data
      = some ⟨some 9, 3 + 7⟩ := by
  refine ⟨?_, ?_, ?_⟩
  · have h := ((getOrSet_contract Nat Nat
      { data := [("k", ⟨some 5, 10⟩)], defaultTTL := 7, hits := 0, misses := 0,
        evictions := 0 } "k" ((some 9 : Option Nat), (none : Option Nat)) 0 3 3).1
      (by decide)).1
    exact h
  · have h := (((getOrSet_contract Nat Nat (NewMemoryCache Nat 7) "k"
      ((none : Option Nat), (some 42 : Option Nat)) 0 3 3).2.1
      (by decide) 42 rfl)).1
    exact h
  · have h := ((getOrSet_contract Nat Nat (NewMemoryCache Nat 7) "k"
      ((some 9 : Option Nat), (none : Option Nat)) 0 3 3).2.2
      (by decide) rfl).2.1
    exact h

/-! ## Claims C7, C8, C10 -/

/-- One-step unfolding of `retryLoop` with fuel remaining. -/
theorem retryLoop_succ (cancelled : Bool) (op : Nat → Option GoError) (m : Int)
    (attempt fuel : Nat) :
    retryLoop cancelled op m attempt (fuel + 1)
      = match op attempt with
        | none => (.ok, 1)
        | some e =>
          if ¬ isRetryable (some e) then (.nonRetryableError e, 1)
          else if fuel = 0 then (.maxRetriesExceeded m (some e), 1)
          else if cancelled then (.contextCancelled ((attempt : Int) + 1), 1)
          else
            ((retryLoop cancelled op m (attempt + 1) fuel).1,
             (retryLoop cancelled op m (attempt + 1) fuel).2 + 1) := rfl

/-- If every invocation fails with a retryable error and the context
is not cancelled, the loop consumes all its fuel and reports the last
failure. -/
theorem retryLoop_all_retryable (op : Nat → Option GoError) (m : Int)
    (hop : ∀ k, ∃ e, op k = some e ∧ isRetryable (some e) = true) :
    ∀ fuel attempt, retryLoop false op m attempt (fuel + 1)
      = (.maxRetriesExceeded m (op (attempt + fuel)), fuel + 1) := by
  intro fuel
  induction fuel with
  | zero =>
    intro attempt
    obtain ⟨e, he, hr⟩ := hop attempt
    simp [retryLoop, he, hr]
  | succ fuel ih =>
    intro attempt
    obtain ⟨e, he, hr⟩ := hop attempt
    have hidx : attempt + 1 + fuel = attempt + (fuel + 1) := by omega
    rw [retryLoop_succ, he]
    simp only [hr]
    rw [ih (attempt + 1)]
    simp [hidx, he]

/-- C8: with retry budget `maxRetries = n ≥ 0` and an operation that
fails with a retryable error on every invocation, `RetryWithBackoff`
without cancellation invokes the operation exactly `n + 1` times and
returns the wrapped exhaustion error carrying the budget `n` and the
last underlying failure (the error of invocation `n`). -/
theorem retry_exhausts_budget (cfg : RetryConfig) (op : Nat → Option GoError)
    (n : Nat) (hmax : cfg.maxRetries = (n : Int))
    (hop : ∀ k, ∃ e, op k = some e ∧ isRetryable (some e) = true) :
    RetryWithBackoff false (some cfg) op
      = (.maxRetriesExceeded (n : Int) (op n), n + 1) := by
  have htn : (cfg.maxRetries + 1).toNat = n + 1 := by rw [hmax]; omega
  simp only [RetryWithBackoff, Option.getD, hmax]
  rw [show ((n : Int) + 1).toNat = n + 1 by omega,
      retryLoop_all_retryable op (n : Int) hop n 0]
  simp

/-- C8 witness: the default config (budget 3) against an operation
that always times out: 4 invocations, exhaustion error carrying 3 and
the timeout. -/
theorem retry_exhausts_budget_witness :
    RetryWithBackoff false (some DefaultRetryConfig) (fun _ => some .timeout)
      = (.maxRetriesExceeded 3 (some .timeout), 3 + 1) :=
  retry_exhausts_budget DefaultRetryConfig (fun _ => some .timeout) 3 rfl
    (fun _ => ⟨.timeout, rfl, rfl⟩)

/-- C7: whatever the context's cancellation status and for any
nonnegative retry budget, an operation whose first failure is
non-retryable is invoked exactly once and the underlying error is
returned wrapped as non-retryable. -/
theorem retry_nonretryable_invokes_once (cancelled : Bool) (cfg : RetryConfig)
    (op : Nat → Option GoError) (e : GoError) (n : Nat)
    (hmax : cfg.maxRetries = (n : Int))
    (h0 : op 0 = some e) (hnr : isRetryable (some e) = false) :
    RetryWithBackoff cancelled (some cfg) op = (.nonRetryableError e, 1) := by
  simp only [RetryWithBackoff, Option.getD, hmax]
  rw [show ((n : Int) + 1).toNat = n + 1 by omega]
  simp [retryLoop, h0, hnr]

/-- C7 witness: the default config against an operation failing with
a generic (non-retryable) error, under an already-cancelled context:
one invocation, wrapped non-retryable error. -/
theorem retry_nonretryable_invokes_once_witness :
    RetryWithBackoff true (some DefaultRetryConfig) (fun _ => some (.other 404))
      = (.nonRetryableError (.other 404), 1) :=
  retry_nonretryable_invokes_once true DefaultRetryConfig
    (fun _ => some (.other 404)) (.other 404) 3 rfl rfl rfl

/-- C10: for a context already cancelled before the call (and a
nonnegative budget), the operation is still invoked at least once;
a first-attempt success returns plain success (cancellation is not
observed after a success); and a first-attempt retryable failure with
budget remaining returns the cancellation error reporting 1 attempt —
cancellation is checked only between a failed retryable attempt and
the backoff wait. -/
theorem retry_cancelled_context_invokes (cfg : RetryConfig)
    (op : Nat → Option GoError) (n : Nat) (hmax : cfg.maxRetries = (n : Int)) :
    (1 ≤ (RetryWithBackoff true (some cfg) op).2) ∧
    (op 0 = none → RetryWithBackoff true (some cfg) op = (.ok, 1)) ∧
    (∀ e, op 0 = some e → isRetryable (some e) = true → 1 ≤ n →
      RetryWithBackoff true (some cfg) op = (.contextCancelled 1, 1)) := by
  have hred : RetryWithBackoff true (some cfg) op
      = retryLoop true op (n : Int) 0 (n + 1) := by
    simp only [RetryWithBackoff, Option.getD, hmax]
    rw [show ((n : Int) + 1).toNat = n + 1 by omega]
  refine ⟨?_, fun h0 => ?_, fun e h0 hr hn => ?_⟩
  · rw [hred]
    cases h : op 0 with
    | none => simp [retryLoop, h]
    | some e =>
      cases hr : isRetryable (some e) with
      | false => simp [retryLoop, h, hr]
      | true =>
        rcases Nat.eq_zero_or_pos n with hn | hn
        · simp [retryLoop, h, hr, hn]
        · simp [retryLoop, h, hr, Nat.pos_iff_ne_zero.mp hn]
  · rw [hred]
    simp [retryLoop, h0]
  · rw [hred]
    simp [retryLoop, h0, hr, Nat.pos_iff_ne_zero.mp hn]

/-- C10 witness: default config, cancelled context.  An operation
that always times out is invoked once and yields the cancellation
error after 1 attempt; an operation that succeeds immediately yields
success. -/
theorem retry_cancelled_context_invokes_witness :
    1 ≤ (RetryWithBackoff true (some DefaultRetryConfig) (fun _ => some .timeout)).2 ∧
    RetryWithBackoff true (some DefaultRetryConfig) (fun _ => none) = (.ok, 1) ∧
    RetryWithBackoff true (some DefaultRetryConfig) (fun _ => some .timeout)
      = (.contextCancelled 1, 1) :=
  ⟨(retry_cancelled_context_invokes DefaultRetryConfig (fun _ => some .timeout) 3 rfl).1,
   (retry_cancelled_context_invokes DefaultRetryConfig (fun _ => none) 3 rfl).2.1 rfl,
   (retry_cancelled_context_invokes DefaultRetryConfig (fun _ => some .timeout) 3 rfl).2.2
     .timeout rfl rfl (by decide)⟩

